import Mathlib

/-!
Verification of the seat-inventory / booking-consistency core of the
bilingual concert landing page.

The embedding models:
* the remote store (`Store`: three tables — theater seats, bookings,
  seat claims) and the booking service functions
  (`getAvailableSeats`, `getBookedSeats`, `getSeatLayout`, `createBooking`)
  from `src/app/services/booking-service.ts`;
* the wizard input validation (`validate`) from
  `src/app/components/booking-flow-v2.tsx`;
* the quantity clamp (`loadMaxQuantity`, `handleQuantityChange`) from
  `src/app/components/booking-flow-v2.tsx`;
* the ticket generator (`generateIndividualTicket`,
  `downloadMultipleTickets`) from `src/app/services/ticket-generator.ts`,
  with promise settlement made explicit (the executor either calls
  `resolve` or returns without settling; it never calls `reject`);
* the seat-picker toggle (`toggle`) from
  `src/app/components/seat-picker.tsx`.

Each network call of the service layer is a separate request that can
fail; failure is modelled by explicit `Bool` flags, and the `try/catch`
wrappers of the source are modelled by `Except` values that the wrapper
collapses to a default (empty) result, so a read never propagates an
error to the caller.
-/

namespace ConcertBooking

/-- The `'vip' | 'classic'` union type of the source. -/
inductive TheaterType
  | vip
  | classic
deriving DecidableEq, Repr

/-- String form of a theater type, as used when composing seat ids
(`` `${bookingData.theater_type}-${seat.row}-${seat.seat_number}` ``). -/
def TheaterType.toStr : TheaterType → String
  | .vip => "vip"
  | .classic => "classic"

/-- Row of the `theater_seats` table (`Seat` interface of
`booking-service.ts`). -/
structure Seat where
  id : String
  theater_type : TheaterType
  row : String
  seat_number : Nat
  is_available : Bool
  created_at : String
deriving DecidableEq, Repr

/-- A `{ row, seat_number }` pair, as used in `BookingData.seats` and in
the result of `getBookedSeats`. -/
structure SeatRef where
  row : String
  seat_number : Nat
deriving DecidableEq, Repr

/-- Row of the `bookings` table, as inserted by `createBooking`. -/
structure Booking where
  id : String
  name : String
  phone : String
  email : Option String
  theater_type : TheaterType
  payment_method : String
  receipt_url : Option String
  status : String
  total_seats : Nat
deriving DecidableEq, Repr

/-- Row of the `booking_seats` table, as inserted by `createBooking`. -/
structure BookingSeat where
  booking_id : String
  row : String
  seat_number : Nat
  theater_type : TheaterType
deriving DecidableEq, Repr

/-- The external data store: the three tables the service layer touches. -/
structure Store where
  theater_seats : List Seat
  bookings : List Booking
  booking_seats : List BookingSeat
deriving Repr

/-- Input of `createBooking` (`Omit<BookingData, 'status'>`). -/
structure BookingData where
  name : String
  phone : String
  email : String
  theater_type : TheaterType
  seats : List SeatRef
  payment_method : String
  receipt_url : String
deriving Repr

/-- The `row` ascending, then `seat_number` ascending order the queries
request (`.order('row').order('seat_number')`). -/
def seatLe (a b : Seat) : Prop :=
  a.row < b.row ∨ (a.row = b.row ∧ a.seat_number ≤ b.seat_number)

instance : DecidableRel seatLe := fun a b => by
  unfold seatLe; infer_instance

instance : IsTotal Seat seatLe where
  total a b := by
    rcases lt_trichotomy a.row b.row with h | h | h
    · exact Or.inl (Or.inl h)
    · rcases Nat.le_total a.seat_number b.seat_number with h2 | h2
      · exact Or.inl (Or.inr ⟨h, h2⟩)
      · exact Or.inr (Or.inr ⟨h.symm, h2⟩)
    · exact Or.inr (Or.inl h)

instance : IsTrans Seat seatLe where
  trans a b c hab hbc := by
    rcases hab with h | ⟨he, hn⟩
    · rcases hbc with h2 | ⟨he2, _⟩
      · exact Or.inl (h.trans h2)
      · exact Or.inl (he2 ▸ h)
    · rcases hbc with h2 | ⟨he2, hn2⟩
      · exact Or.inl (he ▸ h2)
      · exact Or.inr ⟨he.trans he2, hn.trans hn2⟩

/-- Same order on bare `(row, seat_number)` pairs. -/
def refLe (a b : SeatRef) : Prop :=
  a.row < b.row ∨ (a.row = b.row ∧ a.seat_number ≤ b.seat_number)

instance : DecidableRel refLe := fun a b => by
  unfold refLe; infer_instance

instance : IsTotal SeatRef refLe where
  total a b := by
    rcases lt_trichotomy a.row b.row with h | h | h
    · exact Or.inl (Or.inl h)
    · rcases Nat.le_total a.seat_number b.seat_number with h2 | h2
      · exact Or.inl (Or.inr ⟨h, h2⟩)
      · exact Or.inr (Or.inr ⟨h.symm, h2⟩)
    · exact Or.inr (Or.inl h)

instance : IsTrans SeatRef refLe where
  trans a b c hab hbc := by
    rcases hab with h | ⟨he, hn⟩
    · rcases hbc with h2 | ⟨he2, _⟩
      · exact Or.inl (h.trans h2)
      · exact Or.inl (he2 ▸ h)
    · rcases hbc with h2 | ⟨he2, hn2⟩
      · exact Or.inl (he ▸ h2)
      · exact Or.inr ⟨he.trans he2, hn.trans hn2⟩

/-- The query behind `getAvailableSeats`: filter the tier's available
seats and sort by row then seat number. A failing request is an
`Except.error`. -/
def availableQuery (store : Store) (t : TheaterType) (fail : Bool) :
    Except String (List Seat) :=
  if fail then .error "db" else
    .ok (((store.theater_seats.filter
      (fun s => s.theater_type == t && s.is_available == true)).insertionSort seatLe))

/-- `getAvailableSeats` of `booking-service.ts`: the `try/catch` wrapper
returns `[]` on any failure instead of throwing. -/
def getAvailableSeats (store : Store) (t : TheaterType) (fail : Bool) :
    List Seat :=
  match availableQuery store t fail with
  | .ok d => d
  | .error _ => []

/-- The query behind `getBookedSeats`: the tier's unavailable seats,
projected to `(row, seat_number)` and sorted. -/
def bookedQuery (store : Store) (t : TheaterType) (fail : Bool) :
    Except String (List SeatRef) :=
  if fail then .error "db" else
    .ok (((store.theater_seats.filter
      (fun s => s.theater_type == t && s.is_available == false)).map
        (fun s => ⟨s.row, s.seat_number⟩)).insertionSort refLe)

/-- `getBookedSeats` of `booking-service.ts`: `[]` on any failure. -/
def getBookedSeats (store : Store) (t : TheaterType) (fail : Bool) :
    List SeatRef :=
  match bookedQuery store t fail with
  | .ok d => d
  | .error _ => []

/-- Seat id as composed by `createBooking` for the availability update:
`` `${theater_type}-${row}-${seat_number}` ``. -/
def mkSeatId (t : TheaterType) (row : String) (n : Nat) : String :=
  t.toStr ++ "-" ++ row ++ "-" ++ toString n

/-- The `bookings` row `createBooking` inserts: status hard-coded to
`"completed"`, `total_seats` set to the seat count, and empty
email / receipt collapsed to `null` (`bookingData.email || null`). -/
def mkBookingRow (bd : BookingData) (newId : String) : Booking :=
  { id := newId
    name := bd.name
    phone := bd.phone
    email := if bd.email = "" then none else some bd.email
    theater_type := bd.theater_type
    payment_method := bd.payment_method
    receipt_url := if bd.receipt_url = "" then none else some bd.receipt_url
    status := "completed"
    total_seats := bd.seats.length }

/-- The `booking_seats` rows `createBooking` inserts (`bookingSeatsData`). -/
def mkBookingSeats (bd : BookingData) (newId : String) : List BookingSeat :=
  bd.seats.map (fun s =>
    { booking_id := newId
      row := s.row
      seat_number := s.seat_number
      theater_type := bd.theater_type })

/-- `createBooking` of `booking-service.ts`: three separate store calls
(booking insert, seat-claim insert, availability update), each of which
can fail independently (`f1`, `f2`, `f3`). On failure the function
rethrows (`Except.error`) and performs no rollback, so the returned
store keeps every mutation already applied. `newId` stands for the id
the store generates for the inserted booking row. -/
def createBooking (store : Store) (bd : BookingData) (newId : String)
    (f1 f2 f3 : Bool) : Store × Except Unit Booking :=
  if f1 then (store, .error ()) else
    let booking := mkBookingRow bd newId
    let store1 : Store := { store with bookings := booking :: store.bookings }
    if f2 then (store1, .error ()) else
      let store2 : Store :=
        { store1 with booking_seats := mkBookingSeats bd newId ++ store1.booking_seats }
      if f3 then (store2, .error ()) else
        let seatIds := bd.seats.map (fun s => mkSeatId bd.theater_type s.row s.seat_number)
        let updated := store2.theater_seats.map (fun t =>
          if t.id ∈ seatIds then { t with is_available := false } else t)
        let store3 : Store := { store2 with theater_seats := updated }
        (store3, .ok booking)

/-! ### Wizard input validation (`booking-flow-v2.tsx`) -/

/-- The JavaScript regex whitespace class `\s`, as removed by
`formData.phone.replace(/\s/g, '')`. -/
def isJsWhitespace (c : Char) : Bool :=
  c == ' ' || c == '\t' || c == '\n' || c == '\r' ||
  c.toNat == 11 || c.toNat == 12 || c.toNat == 0xa0 || c.toNat == 0x1680 ||
  (0x2000 ≤ c.toNat && c.toNat ≤ 0x200a) || c.toNat == 0x2028 ||
  c.toNat == 0x2029 || c.toNat == 0x202f || c.toNat == 0x205f ||
  c.toNat == 0x3000 || c.toNat == 0xfeff

/-- `s.replace(/\s/g, '')`. -/
def stripWhitespace (s : String) : String :=
  ⟨s.data.filter (fun c => !isJsWhitespace c)⟩

/-- The anchored test `/^(01)[0-9]{9}$/.test s`: the characters of `s`
are `'0'`, `'1'`, then exactly nine characters in `[0-9]`. -/
def phoneRegexTest (s : String) : Bool :=
  match s.data with
  | c0 :: c1 :: rest =>
      c0 == '0' && c1 == '1' && rest.length == 9 &&
        rest.all (fun c => '0' ≤ c && c ≤ '9')
  | _ => false

/-- The anchored test `/^[^\s@]+@[^\s@]+\.[^\s@]+$/.test s`: one `'@'`
splitting the string into a non-empty local part free of whitespace and
`'@'`, and a domain part that is likewise free of whitespace and `'@'`
and contains a `'.'` that is neither its first nor its last character. -/
def emailRegexTest (s : String) : Bool :=
  let cs := s.data
  let localPart := cs.takeWhile (fun c => c != '@')
  match cs.dropWhile (fun c => c != '@') with
  | [] => false
  | _ :: domain =>
      !localPart.isEmpty && localPart.all (fun c => !isJsWhitespace c) &&
      domain.all (fun c => !isJsWhitespace c && c != '@') &&
      ((domain.drop 1).dropLast).contains '.'

/-- The `FormData` state of the booking wizard. `quantity` is an `Int`
(the source additionally checks `Number.isInteger`, which the integer
type makes implicit). -/
structure FormData where
  name : String
  phone : String
  email : String
  quantity : Int
deriving Repr

/-- Which fields `validate` flags (`errors.name = 'name'` etc. —
`true` means the field's error message is set). -/
structure ValidationErrors where
  name : Bool
  phone : Bool
  email : Bool
  quantity : Bool
deriving DecidableEq, Repr

/-- `validate` of `booking-flow-v2.tsx`. -/
def validate (fd : FormData) : ValidationErrors :=
  { name := decide (fd.name.trim.length < 2)
    phone := !phoneRegexTest (stripWhitespace fd.phone)
    email := fd.email != "" && !emailRegexTest fd.email
    quantity := !(decide (1 ≤ fd.quantity) && decide (fd.quantity ≤ 10)) }

/-! ### Quantity clamp (`booking-flow-v2.tsx`) -/

/-- Modelled from the spec: the static seat layout table
(`seat-layout.tsx`, `seatLayout`) is not among the provided sources.
The spec (§4.1, §8) and the repository's API reference give the small
"vip" tier the rows `{ A: 7, B: 8, C: 8 }`, 23 seats in total; the
large "classic" tier totals 254 seats. A layout is an ordered mapping
of row letter to seat count. -/
def seatLayout : TheaterType → List (String × Nat)
  | .vip => [("A", 7), ("B", 8), ("C", 8)]
  | .classic => [("A", 254)]

/-- `Object.values(layout).reduce((a, b) => a + b, 0)`: total capacity
of a layout. -/
def totalCapacity (layout : List (String × Nat)) : Nat :=
  (layout.map Prod.snd).foldl (· + ·) 0

/-- The seat key used for the booked set: `` `${row}-${seat_number}` ``. -/
def seatRefKey (s : SeatRef) : String :=
  s.row ++ "-" ++ toString s.seat_number

/-- `loadBookedSeats` of `booking-flow-v2.tsx`, data part: builds the
`Set` of booked seat keys and sets
`maxQuantity = Math.min(totalSeats - bookedSet.size, 10)`.
Arithmetic over `Int`, as in JavaScript the difference can be negative. -/
def loadMaxQuantity (layout : List (String × Nat)) (booked : List SeatRef) : Int :=
  let bookedSet := (booked.map seatRefKey).dedup
  min ((totalCapacity layout : Int) - bookedSet.length) 10

/-- `handleQuantityChange`:
`Math.min(parseInt(e.target.value) || 0, maxQuantity)` — the parsed
input (`0` when parsing fails) clamped from above by `maxQuantity`. -/
def handleQuantityChange (input : Int) (maxQuantity : Int) : Int :=
  min input maxQuantity

/-! ### Ticket generator (`ticket-generator.ts`) -/

/-- Ticket data handed to the generator. -/
structure TicketInfo where
  bookingId : String
  guestName : String
  ticketType : TheaterType
  row : String
  seatNumber : Nat
  eventName : String
  eventDate : String
  ticketPrice : String
deriving DecidableEq, Repr

/-- The acquired 2D drawing context (`canvas.getContext('2d')` when it
succeeds). Drawing itself is out of scope; only acquisition matters. -/
inductive Canvas2DContext
  | acquired
deriving DecidableEq, Repr

/-- The rendered blob. Visual contents are out of scope; the blob is a
pure function of the ticket data. -/
structure Blob where
  ticket : TicketInfo
deriving DecidableEq, Repr

/-- How the promise of `generateIndividualTicket` settles. The executor
only ever calls `resolve`; there is no `reject` call anywhere in the
source, and when `getContext('2d')` returns `null` the executor hits
`if (!ctx) return;` and exits without settling at all. -/
inductive SettleEvent
  | resolved (b : Blob)
  | rejected
deriving DecidableEq, Repr

/-- The promise executor of `generateIndividualTicket`: the list of
settlement calls it performs, given whether the 2D context could be
acquired. -/
def runTicketExecutor (ctx : Option Canvas2DContext) (info : TicketInfo) :
    List SettleEvent :=
  match ctx with
  | none => []
  | some _ => [.resolved ⟨info⟩]

/-- `await` on the generator's promise: the blob if the promise
resolves, `none` if it never settles (in which case the awaiting code
after it never runs). -/
def awaitBlob (events : List SettleEvent) : Option Blob :=
  match events with
  | .resolved b :: _ => some b
  | _ => none

/-- Download filename:
`` `Ticket-${ticket.bookingId}-${ticket.row}${ticket.seatNumber}.png` ``. -/
def ticketFileName (t : TicketInfo) : String :=
  "Ticket-" ++ t.bookingId ++ "-" ++ t.row ++ toString t.seatNumber ++ ".png"

/-- `downloadSingleTicket`: the downloads it triggers (a download
happens only after the awaited promise resolves). -/
def downloadSingleTicket (ctx : Option Canvas2DContext) (t : TicketInfo) :
    List String :=
  match awaitBlob (runTicketExecutor ctx t) with
  | none => []
  | some _ => [ticketFileName t]

/-- `downloadMultipleTickets`: one awaited render and one download per
ticket, in order; if an awaited promise never settles the loop blocks
and no further download happens. -/
def downloadMultipleTickets (ctx : Option Canvas2DContext) :
    List TicketInfo → List String
  | [] => []
  | t :: ts =>
      match awaitBlob (runTicketExecutor ctx t) with
      | none => []
      | some _ => ticketFileName t :: downloadMultipleTickets ctx ts

/-! ### Seat picker (`seat-picker.tsx`) -/

/-- The picker's seat objects `{ row, seat_number }` are the same shape
as `SeatRef`; `seatRefKey` is the key `` `${seat.row}-${seat.seat_number}` ``
used against the busy set. -/
def sameSeat (a b : SeatRef) : Bool :=
  a.row == b.row && a.seat_number == b.seat_number

/-- `toggle` of `seat-picker.tsx`. `busySet` is the `available` prop
(which the parent fills with the *booked* seat keys): a seat whose key
is in it is refused outright. Otherwise a seat already selected (first
matching index found, then spliced out) is removed, and a new seat is
appended only while the selection is below `quantity`. -/
def toggle (busySet : List String) (quantity : Nat)
    (selected : List SeatRef) (seat : SeatRef) : List SeatRef :=
  if seatRefKey seat ∈ busySet then selected
  else if selected.any (fun s => sameSeat s seat) then
    selected.eraseP (fun s => sameSeat s seat)
  else if selected.length < quantity then selected ++ [seat]
  else selected

/-- A user interaction run: the selection after a sequence of seat
clicks, starting from the empty selection (`useState<Seat[]>([])`). -/
def runToggles (busySet : List String) (quantity : Nat)
    (clicks : List SeatRef) : List SeatRef :=
  clicks.foldl (toggle busySet quantity) []

/-! ### Helper lemmas and sample data -/

/-- Success case of `createBooking`: with no step failing, the result is
the fully mutated store together with the inserted booking row. -/
theorem createBooking_success_eq (store : Store) (bd : BookingData) (newId : String) :
    createBooking store bd newId false false false =
      ({ theater_seats := store.theater_seats.map (fun t =>
            if t.id ∈ bd.seats.map (fun q => mkSeatId bd.theater_type q.row q.seat_number)
            then { t with is_available := false } else t)
         bookings := mkBookingRow bd newId :: store.bookings
         booking_seats := mkBookingSeats bd newId ++ store.booking_seats },
       .ok (mkBookingRow bd newId)) := rfl

/-- A call of `createBooking` only returns `ok` when none of its three
store calls failed. -/
theorem createBooking_ok_flags (store : Store) (bd : BookingData) (newId : String)
    {f1 f2 f3 : Bool}
    (hok : (createBooking store bd newId f1 f2 f3).2.isOk = true) :
    f1 = false ∧ f2 = false ∧ f3 = false := by
  cases f1 <;> cases f2 <;> cases f3 <;>
    simp_all [createBooking, Except.isOk, Except.toBool]

/-- An empty store, used to instantiate theorems at concrete inputs. -/
def sampleStore : Store := ⟨[], [], []⟩

/-- A store seeded with two vip seats following the
`` `${theater_type}-${row}-${seat_number}` `` id convention, seat A1
available and seat A2 already booked. -/
def seededStore : Store :=
  ⟨[⟨mkSeatId .vip "A" 1, .vip, "A", 1, true, ""⟩,
    ⟨mkSeatId .vip "A" 2, .vip, "A", 2, false, ""⟩], [], []⟩

/-- A concrete one-seat booking request. -/
def sampleBD : BookingData :=
  ⟨"Test User", "01011112222", "", .vip, [⟨"A", 1⟩], "vodafone", ""⟩

/-! ### Claims about `createBooking` -/

/-- C2: if any of the three steps of `createBooking` fails, the call
surfaces an error to the caller (the returned `Except` is an error) and
performs no rollback: when the seat-claim insert fails after the
booking insert succeeded, the inserted booking row is still in the
store. -/
theorem createBooking_error_no_rollback (store : Store) (bd : BookingData)
    (newId : String) (f1 f2 f3 : Bool) :
    ((f1 || f2 || f3) = true →
      (createBooking store bd newId f1 f2 f3).2 = .error ()) ∧
    (f1 = false → f2 = true →
      mkBookingRow bd newId ∈ (createBooking store bd newId f1 f2 f3).1.bookings) := by
  cases f1 <;> cases f2 <;> cases f3 <;> simp [createBooking]

/-- Witness for C2: concrete run in which the seat-claim insert fails
after the booking insert succeeded. -/
theorem createBooking_error_no_rollback_witness :
    (createBooking sampleStore sampleBD "B1" false true false).2 = .error () ∧
    mkBookingRow sampleBD "B1" ∈
      (createBooking sampleStore sampleBD "B1" false true false).1.bookings :=
  ⟨(createBooking_error_no_rollback sampleStore sampleBD "B1" false true false).1 rfl,
   (createBooking_error_no_rollback sampleStore sampleBD "B1" false true false).2 rfl rfl⟩

/-- C3: a successful `createBooking` inserts exactly `|S|` seat-claim
rows for the new booking id (provided the id is fresh), each inserted
claim references that id, and the booking row records
`total_seats = |S|`. -/
theorem createBooking_claim_count (store : Store) (bd : BookingData) (newId : String)
    (f1 f2 f3 : Bool)
    (hfresh : ∀ rec ∈ store.booking_seats, rec.booking_id ≠ newId)
    (hok : (createBooking store bd newId f1 f2 f3).2.isOk = true) :
    ((createBooking store bd newId f1 f2 f3).1.booking_seats.filter
        (fun rec => rec.booking_id == newId)).length = bd.seats.length ∧
    (∀ rec ∈ mkBookingSeats bd newId, rec.booking_id = newId) ∧
    (createBooking store bd newId f1 f2 f3).2 = .ok (mkBookingRow bd newId) ∧
    mkBookingRow bd newId ∈ (createBooking store bd newId f1 f2 f3).1.bookings ∧
    (mkBookingRow bd newId).total_seats = bd.seats.length := by
  obtain ⟨e1, e2, e3⟩ := createBooking_ok_flags store bd newId hok
  subst e1; subst e2; subst e3
  have hnew : ∀ rec ∈ mkBookingSeats bd newId, rec.booking_id = newId := by
    intro rec hrec
    obtain ⟨q, _, hq⟩ := List.mem_map.mp hrec
    rw [← hq]
  refine ⟨?_, hnew, ?_, ?_, rfl⟩
  · rw [createBooking_success_eq]
    show ((mkBookingSeats bd newId ++ store.booking_seats).filter
        (fun rec => rec.booking_id == newId)).length = bd.seats.length
    rw [List.filter_append]
    have h1 : (mkBookingSeats bd newId).filter (fun rec => rec.booking_id == newId) =
        mkBookingSeats bd newId := by
      rw [List.filter_eq_self]
      intro a ha
      exact beq_iff_eq.mpr (hnew a ha)
    have h2 : store.booking_seats.filter (fun rec => rec.booking_id == newId) = [] := by
      rw [List.filter_eq_nil_iff]
      intro a ha hbeq
      exact hfresh a ha (beq_iff_eq.mp hbeq)
    rw [h1, h2, List.append_nil, mkBookingSeats, List.length_map]
  · rw [createBooking_success_eq]
  · rw [createBooking_success_eq]
    exact List.mem_cons_self _ _

/-- Witness for C3: the one-seat sample booking against the seeded
store inserts exactly one claim row for the fresh id `"B1"`. -/
theorem createBooking_claim_count_witness :
    ((createBooking seededStore sampleBD "B1" false false false).1.booking_seats.filter
        (fun rec => rec.booking_id == "B1")).length = sampleBD.seats.length :=
  (createBooking_claim_count seededStore sampleBD "B1" false false false
    (by decide) rfl).1

/-- C1: after a successful `createBooking` whose requested seats all
exist in the seeded layout of the tier (there is a seat record for each
`(row, number)`, and seed ids follow the
`` `${theater_type}-${row}-${seat_number}` `` convention the
availability update matches on), every requested seat appears in the
result of `getBookedSeats` for that tier. -/
theorem createBooking_marks_seats_booked (store : Store) (bd : BookingData)
    (newId : String) (f1 f2 f3 : Bool)
    (hseed : ∀ s ∈ store.theater_seats, s.id = mkSeatId s.theater_type s.row s.seat_number)
    (_hne : bd.seats ≠ [])
    (hex : ∀ r ∈ bd.seats, ∃ s ∈ store.theater_seats,
        s.theater_type = bd.theater_type ∧ s.row = r.row ∧ s.seat_number = r.seat_number)
    (hok : (createBooking store bd newId f1 f2 f3).2.isOk = true) :
    ∀ r ∈ bd.seats,
      r ∈ getBookedSeats (createBooking store bd newId f1 f2 f3).1 bd.theater_type false := by
  obtain ⟨e1, e2, e3⟩ := createBooking_ok_flags store bd newId hok
  subst e1; subst e2; subst e3
  intro r hr
  obtain ⟨s, hs, htier, hrow, hnum⟩ := hex r hr
  have hid : s.id ∈ bd.seats.map (fun q => mkSeatId bd.theater_type q.row q.seat_number) := by
    rw [hseed s hs, htier, hrow, hnum]
    exact List.mem_map_of_mem _ hr
  rw [createBooking_success_eq]
  show r ∈ getBookedSeats
    { theater_seats := store.theater_seats.map (fun t =>
        if t.id ∈ bd.seats.map (fun q => mkSeatId bd.theater_type q.row q.seat_number)
        then { t with is_available := false } else t)
      bookings := mkBookingRow bd newId :: store.bookings
      booking_seats := mkBookingSeats bd newId ++ store.booking_seats } bd.theater_type false
  show r ∈ List.insertionSort refLe _
  rw [List.mem_insertionSort, List.mem_map]
  refine ⟨{ s with is_available := false }, ?_, ?_⟩
  · rw [List.mem_filter]
    constructor
    · refine List.mem_map.mpr ⟨s, hs, ?_⟩
      rw [if_pos hid]
    · show (_ && _) = true
      rw [Bool.and_eq_true]
      exact ⟨beq_iff_eq.mpr htier, rfl⟩
  · show (⟨s.row, s.seat_number⟩ : SeatRef) = r
    rw [hrow, hnum]

/-- Witness for C1: booking seat A1 of the seeded store makes
`("A", 1)` appear among the booked seats of the vip tier. -/
theorem createBooking_marks_seats_booked_witness :
    (⟨"A", 1⟩ : SeatRef) ∈
      getBookedSeats (createBooking seededStore sampleBD "B1" false false false).1
        sampleBD.theater_type false :=
  createBooking_marks_seats_booked seededStore sampleBD "B1" false false false
    (by decide) (by decide) (by decide) rfl ⟨"A", 1⟩ (by decide)

/-! ### Claims about the inventory readers -/

/-- Membership in a successful `getAvailableSeats` read. -/
theorem mem_getAvailableSeats (store : Store) (t : TheaterType) (s : Seat) :
    s ∈ getAvailableSeats store t false ↔
      s ∈ store.theater_seats ∧ s.theater_type = t ∧ s.is_available = true := by
  show s ∈ List.insertionSort seatLe _ ↔ _
  rw [List.mem_insertionSort, List.mem_filter]
  simp [Bool.and_eq_true, beq_iff_eq, and_assoc]

/-- C6: `getAvailableSeats` returns the empty sequence on a read
failure (the `catch` swallows the error instead of throwing), and on a
successful read returns exactly the seats of the tier whose
availability flag is `true`, sorted by row then seat number
ascending. -/
theorem getAvailableSeats_spec (store : Store) (t : TheaterType) :
    getAvailableSeats store t true = [] ∧
    (∀ s : Seat, s ∈ getAvailableSeats store t false ↔
      s ∈ store.theater_seats ∧ s.theater_type = t ∧ s.is_available = true) ∧
    List.Sorted seatLe (getAvailableSeats store t false) :=
  ⟨rfl, mem_getAvailableSeats store t, List.sorted_insertionSort seatLe _⟩

/-- C7: for a store whose seats are unique per
`(theater_type, row, seat_number)` (the data-model invariant of the
seeded seats table), no seat returned by `getAvailableSeats` also
occurs, as a `(row, seat_number)` pair, in `getBookedSeats` of the same
tier. -/
theorem available_booked_disjoint (store : Store) (t : TheaterType) (fa fb : Bool)
    (huniq : store.theater_seats.Pairwise (fun a b =>
      ¬(a.theater_type = b.theater_type ∧ a.row = b.row ∧
        a.seat_number = b.seat_number))) :
    ∀ s ∈ getAvailableSeats store t fa,
      (getBookedSeats store t fb).count ⟨s.row, s.seat_number⟩ = 0 := by
  intro s hs
  cases fa with
  | true => simp [getAvailableSeats, availableQuery] at hs
  | false =>
    cases fb with
    | true => rfl
    | false =>
      rw [List.count_eq_zero]
      intro hmem
      have hs' := (mem_getAvailableSeats store t s).mp hs
      have hmem' : (⟨s.row, s.seat_number⟩ : SeatRef) ∈
          (store.theater_seats.filter
            (fun q => q.theater_type == t && q.is_available == false)).map
              (fun q => (⟨q.row, q.seat_number⟩ : SeatRef)) := by
        have := (List.mem_insertionSort (r := refLe)).mp hmem
        exact this
      obtain ⟨s2, hs2f, hs2eq⟩ := List.mem_map.mp hmem'
      rw [List.mem_filter, Bool.and_eq_true, beq_iff_eq, beq_iff_eq] at hs2f
      obtain ⟨hs2mem, hs2t, hs2avail⟩ := hs2f
      have hrow : s2.row = s.row := congrArg SeatRef.row hs2eq
      have hnum : s2.seat_number = s.seat_number := congrArg SeatRef.seat_number hs2eq
      have hne : s ≠ s2 := by
        intro h
        rw [h, hs2avail] at hs'
        exact Bool.false_ne_true hs'.2.2
      have hsym : Symmetric (fun a b : Seat =>
          ¬(a.theater_type = b.theater_type ∧ a.row = b.row ∧
            a.seat_number = b.seat_number)) := by
        intro a b hab hcon
        exact hab ⟨hcon.1.symm, hcon.2.1.symm, hcon.2.2.symm⟩
      exact huniq.forall hsym hs'.1 hs2mem hne
        ⟨hs'.2.1.trans hs2t.symm, hrow.symm, hnum.symm⟩

/-- Witness for C7: in the seeded two-seat store, available seat A1
does not occur among the booked pairs of the vip tier. -/
theorem available_booked_disjoint_witness :
    (getBookedSeats seededStore .vip false).count ⟨"A", 1⟩ = 0 :=
  available_booked_disjoint seededStore .vip false false (by decide)
    ⟨mkSeatId .vip "A" 1, .vip, "A", 1, true, ""⟩ (by decide)

/-! ### Claims about validation and the quantity clamp -/

/-- Spec reading of the phone rule: after removing all whitespace the
string is `01` followed by exactly nine digit characters. -/
def specPhoneAccepted (p : String) : Prop :=
  ∃ rest : List Char, (stripWhitespace p).data = '0' :: '1' :: rest ∧
    rest.length = 9 ∧ ∀ c ∈ rest, c.isDigit = true

/-- The regex character class `[0-9]` tests exactly `Char.isDigit`. -/
theorem digit_test_eq_isDigit (c : Char) :
    (decide ('0' ≤ c) && decide (c ≤ '9')) = c.isDigit := rfl

/-- A character passes `isDigit` exactly when it lies between `'0'`
and `'9'`. -/
theorem isDigit_iff (c : Char) : c.isDigit = true ↔ ('0' ≤ c ∧ c ≤ '9') := by
  rw [← digit_test_eq_isDigit, Bool.and_eq_true, decide_eq_true_eq, decide_eq_true_eq]

/-- Characterization of the anchored regex test `/^(01)[0-9]{9}$/`. -/
theorem phoneRegexTest_eq_true_iff (s : String) :
    phoneRegexTest s = true ↔
      ∃ rest : List Char, s.data = '0' :: '1' :: rest ∧
        rest.length = 9 ∧ ∀ c ∈ rest, c.isDigit = true := by
  unfold phoneRegexTest
  rcases h : s.data with _ | ⟨c0, _ | ⟨c1, rest⟩⟩
  · simp
  · simp
  · simp only [Bool.and_eq_true, beq_iff_eq, Nat.beq_eq, List.all_eq_true,
      decide_eq_true_eq, List.cons.injEq]
    constructor
    · rintro ⟨⟨⟨h0, h1⟩, hlen⟩, hall⟩
      exact ⟨rest, ⟨h0, h1, rfl⟩, hlen, fun c hc => (isDigit_iff c).mpr (hall c hc)⟩
    · rintro ⟨rest2, ⟨h0, h1, hr⟩, hlen, hall⟩
      subst hr
      exact ⟨⟨⟨h0, h1⟩, hlen⟩, fun c hc => (isDigit_iff c).mp (hall c hc)⟩

/-- C4: `validate` accepts a phone string exactly when, with all
whitespace stripped, it is `01` followed by nine digits; in particular
`"01012345678"` is accepted while `"0101234567"` and
`"+201012345678"` are rejected (`phone = true` means the error flag is
set). -/
theorem phone_validation_iff :
    (∀ fd : FormData, (validate fd).phone = false ↔ specPhoneAccepted fd.phone) ∧
    (validate ⟨"Test User", "01012345678", "", 1⟩).phone = false ∧
    (validate ⟨"Test User", "0101234567", "", 1⟩).phone = true ∧
    (validate ⟨"Test User", "+201012345678", "", 1⟩).phone = true := by
  refine ⟨fun fd => ?_, by decide, by decide, by decide⟩
  show (!phoneRegexTest (stripWhitespace fd.phone)) = false ↔ _
  rw [Bool.not_eq_false']
  exact phoneRegexTest_eq_true_iff (stripWhitespace fd.phone)

/-- The booked-seat list used to instantiate the clamp example:
20 distinct booked seats. -/
def bookedTwenty : List SeatRef :=
  (List.range 20).map (fun i => ⟨"A", i + 1⟩)

/-- C5: the maximum bookable quantity computed by `loadBookedSeats` is
`min(totalCapacity - bookedCount, 10)` (capacity the sum of the
layout's per-row counts, bookedCount the number of distinct booked seat
keys), `handleQuantityChange` clamps any entered quantity to at most
that maximum, and with capacity 23 and 20 booked seats a requested
quantity of 10 is clamped to 3. -/
theorem quantity_clamp_spec :
    (∀ (layout : List (String × Nat)) (booked : List SeatRef),
        loadMaxQuantity layout booked =
          min (((layout.map Prod.snd).sum : Int) -
            ((booked.map seatRefKey).dedup).length) 10) ∧
    (∀ input maxQ : Int, handleQuantityChange input maxQ ≤ maxQ) ∧
    totalCapacity (seatLayout .vip) = 23 ∧
    (∀ booked : List SeatRef, ((booked.map seatRefKey).dedup).length = 20 →
        handleQuantityChange 10 (loadMaxQuantity (seatLayout .vip) booked) = 3) := by
  refine ⟨fun layout booked => ?_, fun input maxQ => min_le_right _ _, by decide,
    fun booked h => ?_⟩
  · show min ((totalCapacity layout : Int) - _) 10 = _
    rw [totalCapacity, List.sum_eq_foldl]
  · show min (10 : Int) (min ((totalCapacity (seatLayout .vip) : Int) -
      ((booked.map seatRefKey).dedup).length) 10) = 3
    rw [h]
    decide

/-- Witness for C5: the concrete 20-seat booked list realizes the
clamp of 10 down to 3. -/
theorem quantity_clamp_spec_witness :
    handleQuantityChange 10 (loadMaxQuantity (seatLayout .vip) bookedTwenty) = 3 :=
  quantity_clamp_spec.2.2.2 bookedTwenty (by decide)

/-! ### Claims about the ticket generator -/

/-- C8: when the 2D context cannot be acquired, the promise executor of
`generateIndividualTicket` performs no settlement call at all — the
promise neither resolves nor rejects (the executor never calls `reject`
for any context), so the awaiting download code never runs and no
download or error is observable. -/
theorem ticket_render_failure_silent :
    (∀ info : TicketInfo, runTicketExecutor none info = []) ∧
    (∀ (ctx : Option Canvas2DContext) (info : TicketInfo),
        (runTicketExecutor ctx info).count SettleEvent.rejected = 0) ∧
    (∀ info : TicketInfo, downloadSingleTicket none info = []) := by
  refine ⟨fun info => rfl, fun ctx info => ?_, fun info => rfl⟩
  cases ctx <;> rfl

/-- C9: with a drawing context available, the multi-ticket path
triggers one download per ticket, in order, named
`Ticket-<bookingId>-<row><number>.png`. -/
theorem multi_ticket_downloads (c : Canvas2DContext) (tickets : List TicketInfo) :
    downloadMultipleTickets (some c) tickets = tickets.map ticketFileName ∧
    (downloadMultipleTickets (some c) tickets).length = tickets.length := by
  have h : ∀ ts : List TicketInfo,
      downloadMultipleTickets (some c) ts = ts.map ticketFileName := by
    intro ts
    induction ts with
    | nil => rfl
    | cons t ts ih =>
        show ticketFileName t :: downloadMultipleTickets (some c) ts = _
        rw [ih, List.map_cons]
  exact ⟨h tickets, by rw [h tickets, List.length_map]⟩

/-! ### Claim about the seat picker -/

/-- Invariant of the picker selection: no selected seat is in the busy
set, no `(row, seat_number)` occurs twice, and the selection is no
larger than the requested quantity. -/
def selectionInvariant (busySet : List String) (quantity : Nat)
    (sel : List SeatRef) : Prop :=
  (∀ s ∈ sel, seatRefKey s ∉ busySet) ∧
  sel.Pairwise (fun a b => sameSeat a b = false) ∧
  sel.length ≤ quantity

/-- Unfolding of `sameSeat`. -/
theorem sameSeat_eq_true_iff (a b : SeatRef) :
    sameSeat a b = true ↔ (a.row = b.row ∧ a.seat_number = b.seat_number) := by
  rw [sameSeat, Bool.and_eq_true, beq_iff_eq, beq_iff_eq]

/-- `toggle` preserves the selection invariant. -/
theorem toggle_preserves_invariant (busySet : List String) (quantity : Nat)
    (sel : List SeatRef) (seat : SeatRef)
    (hinv : selectionInvariant busySet quantity sel) :
    selectionInvariant busySet quantity (toggle busySet quantity sel seat) := by
  obtain ⟨hbusy, hpair, hlen⟩ := hinv
  unfold toggle
  split_ifs with h1 h2 h3
  · exact ⟨hbusy, hpair, hlen⟩
  · have hsub : List.Sublist (sel.eraseP (fun s => sameSeat s seat)) sel :=
      List.eraseP_sublist sel
    exact ⟨fun s hs => hbusy s (hsub.subset hs), List.Pairwise.sublist hsub hpair,
      le_trans hsub.length_le hlen⟩
  · refine ⟨?_, ?_, ?_⟩
    · intro s hs
      rcases List.mem_append.mp hs with hs' | hs'
      · exact hbusy s hs'
      · rw [List.mem_singleton.mp hs']
        exact h1
    · rw [List.pairwise_append]
      refine ⟨hpair, List.pairwise_singleton _ _, ?_⟩
      intro a ha b hb
      rw [List.mem_singleton.mp hb]
      cases hc : sameSeat a seat with
      | false => rfl
      | true => exact absurd (List.any_eq_true.mpr ⟨a, ha, hc⟩) h2
    · rw [List.length_append, List.length_singleton]
      exact Nat.succ_le_of_lt h3
  · exact ⟨hbusy, hpair, hlen⟩

/-- The invariant holds after any click sequence from the empty
selection. -/
theorem runToggles_invariant (busySet : List String) (quantity : Nat)
    (clicks : List SeatRef) :
    selectionInvariant busySet quantity (runToggles busySet quantity clicks) := by
  unfold runToggles
  have h : ∀ (cs : List SeatRef) (init : List SeatRef),
      selectionInvariant busySet quantity init →
      selectionInvariant busySet quantity (cs.foldl (toggle busySet quantity) init) := by
    intro cs
    induction cs with
    | nil => exact fun init h => h
    | cons c cs ih =>
        intro init h
        exact ih _ (toggle_preserves_invariant busySet quantity init c h)
  exact h clicks [] ⟨fun s hs => absurd hs (List.not_mem_nil s), List.Pairwise.nil,
    Nat.zero_le _⟩

/-- Toggling a seat that is already selected removes it: no matching
seat remains afterwards (uses the no-duplicate invariant). -/
theorem toggle_removes_selected (busySet : List String) (quantity : Nat)
    (sel : List SeatRef) (seat : SeatRef)
    (hinv : selectionInvariant busySet quantity sel)
    (hin : ∃ t ∈ sel, sameSeat t seat = true) :
    ∀ t ∈ toggle busySet quantity sel seat, sameSeat t seat = false := by
  obtain ⟨hbusy, hpair, _⟩ := hinv
  obtain ⟨t0, ht0mem, ht0⟩ := hin
  have hkey : seatRefKey t0 = seatRefKey seat := by
    obtain ⟨hr, hn⟩ := (sameSeat_eq_true_iff t0 seat).mp ht0
    rw [seatRefKey, seatRefKey, hr, hn]
  have hnb : seatRefKey seat ∉ busySet := hkey ▸ hbusy t0 ht0mem
  have hany : sel.any (fun s => sameSeat s seat) = true :=
    List.any_eq_true.mpr ⟨t0, ht0mem, ht0⟩
  rw [toggle, if_neg hnb, if_pos hany]
  intro t ht
  obtain ⟨a, l₁, l₂, hl₁, hpa, hdecomp, herase⟩ :=
    List.exists_of_eraseP (p := fun s => sameSeat s seat) ht0mem ht0
  rw [herase] at ht
  rcases List.mem_append.mp ht with ht' | ht'
  · cases hb : sameSeat t seat with
    | false => rfl
    | true => exact absurd hb (hl₁ t ht')
  · cases hb : sameSeat t seat with
    | false => rfl
    | true =>
        exfalso
        have hat : sameSeat a t = false := by
          rw [hdecomp] at hpair
          have hp2 := (List.pairwise_append.mp hpair).2.1
          exact (List.pairwise_cons.mp hp2).1 t ht'
        obtain ⟨har, han⟩ := (sameSeat_eq_true_iff a seat).mp hpa
        obtain ⟨htr, htn⟩ := (sameSeat_eq_true_iff t seat).mp hb
        have hat' : sameSeat a t = true :=
          (sameSeat_eq_true_iff a t).mpr ⟨har.trans htr.symm, han.trans htn.symm⟩
        rw [hat'] at hat
        exact absurd hat (by decide)

/-- C10: after any sequence of seat clicks starting from the empty
selection, the selection contains no seat of the busy (booked) set, no
duplicate `(row, seat_number)`, and at most `quantity` seats; and
clicking a seat that is already selected removes it (no matching seat
survives the toggle). -/
theorem seat_picker_selection_invariants (busySet : List String) (quantity : Nat)
    (clicks : List SeatRef) :
    (∀ s ∈ runToggles busySet quantity clicks, seatRefKey s ∉ busySet) ∧
    (runToggles busySet quantity clicks).Pairwise (fun a b => sameSeat a b = false) ∧
    (runToggles busySet quantity clicks).length ≤ quantity ∧
    (∀ seat : SeatRef,
      (∃ t ∈ runToggles busySet quantity clicks, sameSeat t seat = true) →
      ∀ t ∈ toggle busySet quantity (runToggles busySet quantity clicks) seat,
        sameSeat t seat = false) := by
  have hinv := runToggles_invariant busySet quantity clicks
  exact ⟨hinv.1, hinv.2.1, hinv.2.2,
    fun seat hin => toggle_removes_selected busySet quantity _ seat hinv hin⟩

/-- Witness for C10: with seat A1 booked and quantity 2, the click
sequence A1, A2, A3, A4, A2 ends with a selection of at most 2 seats
whose keys avoid the busy set. -/
theorem seat_picker_selection_invariants_witness :
    seatRefKey ⟨"A", 3⟩ ∉ ["A-1"] ∧
    (runToggles ["A-1"] 2 [⟨"A", 1⟩, ⟨"A", 2⟩, ⟨"A", 3⟩, ⟨"A", 4⟩, ⟨"A", 2⟩]).length ≤ 2 :=
  ⟨(seat_picker_selection_invariants ["A-1"] 2
      [⟨"A", 1⟩, ⟨"A", 2⟩, ⟨"A", 3⟩, ⟨"A", 4⟩, ⟨"A", 2⟩]).1 ⟨"A", 3⟩ (by decide),
   (seat_picker_selection_invariants ["A-1"] 2
      [⟨"A", 1⟩, ⟨"A", 2⟩, ⟨"A", 3⟩, ⟨"A", 4⟩, ⟨"A", 2⟩]).2.2.1⟩

end ConcertBooking
